import Mathlib

/-!
Verification of the blog application core (src/main.py).

The Flask handlers are shallowly embedded as pure functions over an
explicit database state (the three tables of blog.db) and the
flask_login session state.  Template rendering, routing dispatch and
form plumbing are not modelled; each handler function models the body
of the corresponding route handler on a validated submission, together
with the schema-level UNIQUE constraints that decide whether a commit
succeeds.  Unhandled Python exceptions (an AttributeError on a None
row, an ORM error on a non-mapped object) are modelled as explicit
error outcomes that leave the database unchanged, since a failed
request never commits.
-/

namespace Blog

/-- A row of the `users` table (class User, src/main.py lines 33-43):
integer primary key, email (UNIQUE), stored password hash, name. -/
structure User where
  id : Nat
  email : String
  password : String
  name : String
deriving Repr, DecidableEq

/-- A row of the `blog_posts` table (class BlogPost, lines 46-60):
integer primary key, author foreign key, UNIQUE title, subtitle,
date string, body, image URL. -/
structure BlogPost where
  id : Nat
  author_id : Nat
  title : String
  subtitle : String
  date : String
  body : String
  img_url : String
deriving Repr, DecidableEq

/-- A row of the `comments` table (class Comments, lines 63-70).  Both
foreign keys are nullable columns, hence `Option`. -/
structure Comment where
  id : Nat
  author_id : Option Nat
  post_id : Option Nat
  text : String
deriving Repr, DecidableEq

/-- The three tables of blog.db, in insertion order. -/
structure DB where
  users : List User
  posts : List BlogPost
  comments : List Comment
deriving Repr, DecidableEq

/-- The freshly created database (db.create_all() on a new file). -/
def emptyDB : DB := ⟨[], [], []⟩

/-- flask_login session state: `current_user` is either the anonymous
user or a logged-in user identified by their row id. -/
inductive CurrentUser where
  | anonymous
  | user (id : Nat)
deriving Repr, DecidableEq

/-- SQLite assigns a fresh row the successor of the largest existing
primary key (1 for an empty table). -/
def nextId (ids : List Nat) : Nat := ids.foldr max 0 + 1

/-- generate_password_hash with method pbkdf2:sha256 (line 100).  The
random salt plays no role in any property below, so the stored
credential is modelled as a deterministic tag of the plaintext. -/
def generate_password_hash (plaintext : String) : String :=
  "pbkdf2:sha256:" ++ plaintext

/-- check_password_hash (line 116): true exactly when the plaintext
matches the one the stored credential was produced from. -/
def check_password_hash (stored plaintext : String) : Bool :=
  stored == generate_password_hash plaintext

/-- The test of the admin_only decorator (lines 77-84): the request is
allowed iff current_user.id == 1, otherwise abort(403). -/
def admin_check (u : User) : Bool := u.id == 1

/-- Modelled from the spec: the minimum id present in the Identity
Repository (the id of the first-ever-registered user), none when the
table is empty. -/
def minUserId (db : DB) : Option Nat := (db.users.map (·.id)).min?

/-- BlogPost.query.get(id): the post with the given primary key. -/
def getPost (db : DB) (id : Nat) : Option BlogPost :=
  db.posts.find? (fun p => p.id == id)

inductive RegisterResult where
  /-- the new row was committed, the new user logged in, redirect to / -/
  | redirectedHome (newUser : User)
  /-- the UNIQUE constraint on users.email aborted the commit: nothing
  stored, nobody logged in, HTTP 500 -/
  | integrityError
deriving Repr, DecidableEq

/-- Handler `register` (lines 94-106): builds a User directly from the
submitted fields with no content validation, hashes the password,
inserts and commits, then logs the new user in.  The handler never
checks for an existing email; when the email is already present the
UNIQUE constraint on users.email makes the commit raise IntegrityError
before login_user runs. -/
def register (db : DB) (current : CurrentUser) (email password name : String) :
    DB × CurrentUser × RegisterResult :=
  let newUser : User :=
    { id := nextId (db.users.map (·.id))
      email := email
      password := generate_password_hash password
      name := name }
  if db.users.any (fun u => u.email == email) then
    (db, current, .integrityError)
  else
    ({ db with users := db.users ++ [newUser] }, .user newUser.id,
      .redirectedHome newUser)

inductive LoginResult where
  /-- credentials accepted, session bound to the user, redirect to / -/
  | redirectedHome
  /-- check_password_hash returned False: flash "Try again please" -/
  | flashTryAgain
  /-- no row has that email: `user` is None and `user.password` raises
  AttributeError, HTTP 500 -/
  | attributeError
deriving Repr, DecidableEq

/-- Handler `login` (lines 109-122): fetches the first user with the
submitted email and immediately evaluates
check_password_hash(user.password, password).  There is no None check,
so an unknown email crashes with AttributeError instead of reaching
the flash branch.  No table is ever written. -/
def login (db : DB) (current : CurrentUser) (email password : String) :
    DB × CurrentUser × LoginResult :=
  match db.users.find? (fun u => u.email == email) with
  | none => (db, current, .attributeError)
  | some u =>
      if check_password_hash u.password password then
        (db, .user u.id, .redirectedHome)
      else
        (db, current, .flashTryAgain)

/-- Handler `logout` (lines 125-128): logout_user() then redirect;
only the session changes. -/
def logout (db : DB) (_current : CurrentUser) : DB × CurrentUser :=
  (db, .anonymous)

inductive ShowPostResult where
  /-- the page renders the requested post (None if absent) and the
  comment list that was read before any insert -/
  | rendered (post : Option BlogPost) (comments : List Comment)
  /-- the anonymous user object reached the comment_author
  relationship: flask_login's AnonymousUserMixin is not a mapped User,
  the ORM raises and nothing is committed, HTTP 500 -/
  | ormError
deriving Repr, DecidableEq

/-- Handler `show_post` (lines 131-144).  `submitted` is the comment
text of a validated POST, none for a plain GET.  The route carries no
login_required gate and no existence check on the post: a logged-in
submission always inserts a comment whose post_id is NULL when the
requested post id is absent, while an anonymous submission hands the
anonymous user to the ORM, which raises.  The rendered comment list is
Comments.query.all(), read before the insert. -/
def show_post (db : DB) (current : CurrentUser) (post_id : Nat)
    (submitted : Option String) : DB × ShowPostResult :=
  let requested := db.posts.find? (fun p => p.id == post_id)
  let all_comments := db.comments
  match submitted with
  | none => (db, .rendered requested all_comments)
  | some text =>
      match current with
      | .anonymous => (db, .ormError)
      | .user uid =>
          let newComment : Comment :=
            { id := nextId (db.comments.map (·.id))
              author_id := some uid
              post_id := requested.map (·.id)
              text := text }
          ({ db with comments := db.comments ++ [newComment] },
            .rendered requested all_comments)

inductive CreateResult where
  /-- the post was committed, redirect to / -/
  | redirectedHome (newPost : BlogPost)
  /-- login_required: the anonymous session is sent to the login page -/
  | loginRedirect
  /-- admin_only: abort(403) -/
  | forbidden
  /-- the UNIQUE constraint on blog_posts.title aborted the commit -/
  | integrityError
deriving Repr, DecidableEq

/-- Handler `add_new_post` (lines 157-174) behind login_required and
admin_only.  `today` stands for date.today().strftime("%B %d, %Y"). -/
def add_new_post (db : DB) (current : CurrentUser)
    (title subtitle body img_url today : String) : DB × CreateResult :=
  match current with
  | .anonymous => (db, .loginRedirect)
  | .user uid =>
      if uid != 1 then (db, .forbidden)
      else if db.posts.any (fun p => p.title == title) then
        (db, .integrityError)
      else
        let newPost : BlogPost :=
          { id := nextId (db.posts.map (·.id))
            author_id := uid
            title := title
            subtitle := subtitle
            date := today
            body := body
            img_url := img_url }
        ({ db with posts := db.posts ++ [newPost] }, .redirectedHome newPost)

inductive EditResult where
  /-- the row was updated, redirect to the post page -/
  | redirectedToPost
  /-- login_required: the anonymous session is sent to the login page -/
  | loginRedirect
  /-- admin_only: abort(403) -/
  | forbidden
  /-- BlogPost.query.get returned None and post.title raised -/
  | attributeError
  /-- the new title collides with a different row's UNIQUE title -/
  | integrityError
deriving Repr, DecidableEq

/-- Handler `edit_post` (lines 177-198) behind the same two gates: the
fetched row's title, subtitle, img_url, author and body are overwritten
from the submitted form and committed (the date column is untouched).
A missing post id makes post.title raise AttributeError.  The author
form field is modelled as a user id, matching the author reference the
handler assigns; forms.py is not part of the analysed source. -/
def edit_post (db : DB) (current : CurrentUser) (post_id : Nat)
    (title subtitle img_url : String) (author : Nat) (body : String) :
    DB × EditResult :=
  match current with
  | .anonymous => (db, .loginRedirect)
  | .user uid =>
      if uid != 1 then (db, .forbidden)
      else
        match db.posts.find? (fun p => p.id == post_id) with
        | none => (db, .attributeError)
        | some _ =>
            if db.posts.any (fun q => q.id != post_id && q.title == title) then
              (db, .integrityError)
            else
              ({ db with posts := db.posts.map (fun q =>
                  if q.id == post_id then
                    { q with title := title, subtitle := subtitle,
                             img_url := img_url, author_id := author,
                             body := body }
                  else q) }, .redirectedToPost)

inductive DeleteResult where
  /-- the row was deleted, redirect to / -/
  | redirectedHome
  /-- login_required: the anonymous session is sent to the login page -/
  | loginRedirect
  /-- admin_only: abort(403) -/
  | forbidden
  /-- BlogPost.query.get returned None and db.session.delete raised -/
  | unmappedNoneError
deriving Repr, DecidableEq

/-- Handler `delete_post` (lines 201-208) behind the same two gates.
The comments relationship carries no delete cascade, so deleting a
post only nulls the post_id of its comments; the comment rows stay. -/
def delete_post (db : DB) (current : CurrentUser) (post_id : Nat) :
    DB × DeleteResult :=
  match current with
  | .anonymous => (db, .loginRedirect)
  | .user uid =>
      if uid != 1 then (db, .forbidden)
      else
        match db.posts.find? (fun p => p.id == post_id) with
        | none => (db, .unmappedNoneError)
        | some _ =>
            ({ db with
                posts := db.posts.filter (fun p => !(p.id == post_id))
                comments := db.comments.map (fun c =>
                  if c.post_id == some post_id then { c with post_id := none }
                  else c) },
              .redirectedHome)

/-- The shape of the id column of the users table in every reachable
state: users are created only by `register`, which appends a row with
id = max + 1 starting from 1, and no operation deletes or renumbers a
user, so the ids read 1, 2, ..., n in insertion order. -/
def UsersSeq (db : DB) : Prop :=
  db.users.map (·.id) = List.range' 1 db.users.length

/-! Supporting lemmas about fresh-id computation and the users-table
invariant, shared by the claim theorems below. -/

theorem foldr_max_eq_of_le {l : List Nat} {b : Nat} (h : ∀ x ∈ l, x ≤ b) :
    l.foldr max b = b := by
  induction l with
  | nil => rfl
  | cons a t ih =>
      simp only [List.foldr_cons]
      rw [ih (fun x hx => h x (List.mem_cons_of_mem _ hx))]
      exact Nat.max_eq_right (h a (List.mem_cons_self _ _))

theorem le_foldr_max {l : List Nat} {x : Nat} (hx : x ∈ l) :
    x ≤ l.foldr max 0 := by
  induction l with
  | nil => cases hx
  | cons a t ih =>
      simp only [List.foldr_cons]
      rcases List.mem_cons.mp hx with h | h
      · exact h ▸ Nat.le_max_left _ _
      · exact le_trans (ih h) (Nat.le_max_right _ _)

/-- Every id already in the table is strictly below the freshly
assigned one. -/
theorem lt_nextId {ids : List Nat} {x : Nat} (hx : x ∈ ids) : x < nextId ids :=
  Nat.lt_succ_of_le (le_foldr_max hx)

theorem foldr_max_range' (n : Nat) : (List.range' 1 n).foldr max 0 = n := by
  induction n with
  | zero => rfl
  | succ k _ =>
      rw [List.range'_concat, List.foldr_append]
      have h1 : List.foldr max 0 [1 + 1 * k] = 1 + 1 * k := by
        simp [Nat.max_eq_left (Nat.zero_le _)]
      rw [h1]
      have h2 : ∀ x ∈ List.range' 1 k, x ≤ 1 + 1 * k := by
        intro x hx
        have := (List.mem_range'_1.mp hx).2
        omega
      rw [foldr_max_eq_of_le h2]
      omega

theorem nextId_of_usersSeq {db : DB} (h : UsersSeq db) :
    nextId (db.users.map (·.id)) = db.users.length + 1 := by
  unfold nextId
  rw [h, foldr_max_range']

theorem usersSeq_empty : UsersSeq emptyDB := rfl

/-- `register` is the only operation that writes the users table, and it
preserves the 1, 2, ..., n shape of the id column. -/
theorem register_preserves_usersSeq (db : DB) (current : CurrentUser)
    (email password name : String) (h : UsersSeq db) :
    UsersSeq (register db current email password name).1 := by
  have hnext := nextId_of_usersSeq h
  unfold register
  by_cases hdup : (db.users.any fun u => u.email == email) = true
  · simpa [hdup] using h
  · simp only [if_neg hdup]
    unfold UsersSeq at h ⊢
    simp only [List.map_append, List.map_cons, List.map_nil,
      List.length_append, List.length_cons, List.length_nil]
    rw [hnext, h]
    have hc : List.range' 1 (db.users.length + 1)
        = List.range' 1 db.users.length ++ [1 + 1 * db.users.length] :=
      List.range'_concat 1 db.users.length
    have harith : 1 + 1 * db.users.length = db.users.length + 1 := by omega
    rw [harith] at hc
    exact hc.symm

theorem login_users (db : DB) (cur : CurrentUser) (email password : String) :
    ((login db cur email password).1).users = db.users := by
  unfold login
  cases db.users.find? (fun u => u.email == email) with
  | none => rfl
  | some u => by_cases h : check_password_hash u.password password <;> simp [h]

theorem show_post_users (db : DB) (cur : CurrentUser) (pid : Nat)
    (s : Option String) : ((show_post db cur pid s).1).users = db.users := by
  unfold show_post
  cases s with
  | none => rfl
  | some t => cases cur <;> rfl

theorem add_new_post_users (db : DB) (cur : CurrentUser)
    (t s b i d : String) : ((add_new_post db cur t s b i d).1).users = db.users := by
  unfold add_new_post
  cases cur with
  | anonymous => rfl
  | user uid =>
      dsimp only
      split
      · rfl
      · split <;> rfl

theorem edit_post_users (db : DB) (cur : CurrentUser) (pid : Nat)
    (t s i : String) (a : Nat) (b : String) :
    ((edit_post db cur pid t s i a b).1).users = db.users := by
  unfold edit_post
  cases cur with
  | anonymous => rfl
  | user uid =>
      dsimp only
      split
      · rfl
      · split
        · rfl
        · split <;> rfl

theorem delete_post_users (db : DB) (cur : CurrentUser) (pid : Nat) :
    ((delete_post db cur pid).1).users = db.users := by
  unfold delete_post
  cases cur with
  | anonymous => rfl
  | user uid =>
      dsimp only
      split
      · rfl
      · split <;> rfl

/-! Concrete database fixtures used by witnesses and counterexamples. -/

/-- The first-registered user (id 1). -/
def aliceRow : User :=
  { id := 1, email := "alice@x.com",
    password := generate_password_hash ("pw1"), name := "Alice" }

/-- A later-registered user (id 2). -/
def bobRow : User :=
  { id := 2, email := "bob@x.com",
    password := generate_password_hash ("pw2"), name := "Bob" }

/-- Two registered users, no posts, no comments. -/
def dbAB : DB := ⟨[aliceRow, bobRow], [], []⟩

/-- A post written by the administrator. -/
def helloPost : BlogPost :=
  { id := 1, author_id := 1, title := "Hello", subtitle := "first",
    date := "May 01, 2021", body := "hi there", img_url := "img.png" }

/-- Two registered users and one existing post. -/
def dbABP : DB := ⟨[aliceRow, bobRow], [helloPost], []⟩

/-- Two registered users, the Hello post, and a comment by Bob on it. -/
def dbABPC : DB :=
  ⟨[aliceRow, bobRow], [helloPost],
    [{ id := 1, author_id := some 2, post_id := some 1, text := "nice" }]⟩

/-! The claim theorems. -/

/-- C1: in every reachable identity repository, the admin_only test
(current_user.id == 1) accepts a stored user exactly when that user's
id is the minimum id present (the first-ever-registered user), and
each content-mutating handler (add_new_post, edit_post, delete_post)
answers 403 Forbidden for an authenticated user exactly when that test
rejects them. -/
theorem admin_iff_min_id (db : DB) (hseq : UsersSeq db) (u : User)
    (hu : u ∈ db.users) :
    (admin_check u = true ↔ minUserId db = some u.id)
    ∧ (∀ t s b i d, (add_new_post db (.user u.id) t s b i d).2 = .forbidden
        ↔ admin_check u = false)
    ∧ (∀ pid t s i a b, (edit_post db (.user u.id) pid t s i a b).2 = .forbidden
        ↔ admin_check u = false)
    ∧ (∀ pid, (delete_post db (.user u.id) pid).2 = .forbidden
        ↔ admin_check u = false) := by
  have hid : u.id ∈ List.range' 1 db.users.length := by
    have := List.mem_map_of_mem (·.id) hu
    rwa [hseq] at this
  have hbounds := List.mem_range'_1.mp hid
  have hlen : 1 ≤ db.users.length := by omega
  have hmin : minUserId db = some 1 := by
    unfold minUserId
    rw [hseq]
    rw [List.min?_eq_some_iff']
    constructor
    · exact List.mem_range'_1.mpr ⟨le_refl 1, by omega⟩
    · intro b hb
      exact (List.mem_range'_1.mp hb).1
  refine ⟨?_, ?_, ?_, ?_⟩
  · unfold admin_check
    rw [hmin]
    constructor
    · intro h
      have : u.id = 1 := by simpa using h
      rw [this]
    · intro h
      have : u.id = 1 := by
        have := Option.some.inj h
        omega
      simp [this]
  · intro t s b i d
    unfold add_new_post
    dsimp only
    by_cases h : u.id = 1
    · apply iff_of_false
      · rw [if_neg (by simp [h])]
        split <;> simp
      · simp [admin_check, h]
    · apply iff_of_true
      · rw [if_pos (by simp [h])]
      · simp [admin_check, h]
  · intro pid t s i a b
    unfold edit_post
    dsimp only
    by_cases h : u.id = 1
    · apply iff_of_false
      · rw [if_neg (by simp [h])]
        split
        · simp
        · split <;> simp
      · simp [admin_check, h]
    · apply iff_of_true
      · rw [if_pos (by simp [h])]
      · simp [admin_check, h]
  · intro pid
    unfold delete_post
    dsimp only
    by_cases h : u.id = 1
    · apply iff_of_false
      · rw [if_neg (by simp [h])]
        split <;> simp
      · simp [admin_check, h]
    · apply iff_of_true
      · rw [if_pos (by simp [h])]
      · simp [admin_check, h]

/-- C1 witness: in the two-user repository, Bob (id 2, not the minimum
id) is rejected with 403 by all three mutating handlers. -/
theorem admin_iff_min_id_witness :
    ((admin_check bobRow = true ↔ minUserId dbAB = some bobRow.id)
    ∧ ((add_new_post dbAB (.user bobRow.id) ("T") ("S") ("B") ("I") ("D")).2
        = .forbidden ↔ admin_check bobRow = false)
    ∧ ((edit_post dbAB (.user bobRow.id) 1 ("T") ("S") ("I") 2 ("B")).2
        = .forbidden ↔ admin_check bobRow = false)
    ∧ ((delete_post dbAB (.user bobRow.id) 1).2
        = .forbidden ↔ admin_check bobRow = false)) := by
  obtain ⟨h1, h2, h3, h4⟩ :=
    admin_iff_min_id dbAB (by unfold UsersSeq; decide) bobRow (by decide)
  exact ⟨h1, h2 ("T") ("S") ("B") ("I") ("D"), h3 1 ("T") ("S") ("I") 2 ("B"), h4 1⟩

/-- C2: login with an email that is in no user row reaches
check_password_hash(user.password, ...) with user = None and crashes
with AttributeError (HTTP 500), while a wrong password for a known
email reaches the flash branch: the two failures are different, so
unknown emails do not get the claimed single undifferentiated
InvalidCredentialsError. -/
theorem login_unknown_email_crash :
    (login dbAB .anonymous ("carol@x.com") ("pw1")).2.2 = .attributeError
    ∧ (login dbAB .anonymous ("alice@x.com") ("wrong")).2.2 = .flashTryAgain
    ∧ LoginResult.attributeError ≠ LoginResult.flashTryAgain :=
  ⟨rfl, by decide, by decide⟩

/-- C3: show_post carries no authentication gate: an anonymous comment
submission on an existing post hands the anonymous user object to the
comment_author relationship and dies with an unhandled ORM error
(nothing committed), not the clean redirect-to-login that the gated
handlers produce for an anonymous session; the same submission by the
logged-in Bob (id 2) succeeds and records Bob as the author. -/
theorem anonymous_comment_crash :
    show_post dbABP .anonymous 1 (some ("nice")) = (dbABP, .ormError)
    ∧ (show_post dbABP (.user 2) 1 (some ("nice"))).1.comments
        = [{ id := 1, author_id := some 2, post_id := some 1, text := "nice" }] :=
  ⟨rfl, by decide⟩

/-- C5: a logged-in comment submission against a post id that is not
in the content repository is not rejected with NotFoundError: a
comment row is committed whose post reference is NULL. -/
theorem comment_on_missing_post :
    getPost dbABP 99 = none
    ∧ (show_post dbABP (.user 2) 99 (some ("hi"))).1.comments
        = [{ id := 1, author_id := some 2, post_id := none, text := "hi" }] :=
  ⟨by decide, by decide⟩

/-- C4: registering an email already present makes the commit fail on
the users.email UNIQUE constraint, storing nothing and leaving the
session untouched; a not-yet-used email always yields a new appended
user row whose id is fresh (strictly above every existing id). -/
theorem register_duplicate_email (db : DB) (current : CurrentUser)
    (email password name : String) :
    ((∃ u ∈ db.users, u.email = email) →
      register db current email password name = (db, current, .integrityError))
    ∧ ((∀ u ∈ db.users, u.email ≠ email) →
      ∃ newUser : User,
        register db current email password name
          = ({ db with users := db.users ++ [newUser] }, .user newUser.id,
              .redirectedHome newUser)
        ∧ newUser.email = email
        ∧ ∀ u ∈ db.users, u.id < newUser.id) := by
  constructor
  · rintro ⟨u, hu, he⟩
    have hdup : (db.users.any fun v => v.email == email) = true :=
      List.any_eq_true.mpr ⟨u, hu, by simp [he]⟩
    unfold register
    simp only [if_pos hdup]
  · intro hfree
    have hdup : ¬(db.users.any fun v => v.email == email) = true := by
      simp only [Bool.not_eq_true, List.any_eq_false]
      intro v hv
      simp [hfree v hv]
    refine ⟨{ id := nextId (db.users.map (·.id)), email := email,
              password := generate_password_hash password, name := name },
            ?_, rfl, ?_⟩
    · unfold register
      simp only [if_neg hdup]
    · intro u hu
      exact lt_nextId (List.mem_map_of_mem (·.id) hu)

/-- C4 witness: re-registering alice@x.com over the two-user
repository is refused with nothing stored, and registering the fresh
carol@x.com appends a new row with a fresh id. -/
theorem register_duplicate_email_witness :
    (register dbAB .anonymous ("alice@x.com") ("newpw") ("A2")
      = (dbAB, .anonymous, .integrityError))
    ∧ ∃ newUser : User,
        register dbAB .anonymous ("carol@x.com") ("pw3") ("Carol")
          = ({ dbAB with users := dbAB.users ++ [newUser] }, .user newUser.id,
              .redirectedHome newUser)
        ∧ newUser.email = "carol@x.com"
        ∧ ∀ u ∈ dbAB.users, u.id < newUser.id :=
  ⟨(register_duplicate_email dbAB .anonymous ("alice@x.com") ("newpw") ("A2")).1
      ⟨aliceRow, by decide, by decide⟩,
   (register_duplicate_email dbAB .anonymous ("carol@x.com") ("pw3") ("Carol")).2
      (by decide)⟩

/-- C10: register validates nothing about the submitted fields: over
arbitrary email, password and name strings the only failure condition
is an email collision, and with an unused email the stored row carries
the submitted contents verbatim (the password hashed). -/
theorem register_no_validation (db : DB) (current : CurrentUser)
    (email password name : String) :
    ((register db current email password name).2.2 = .integrityError
        ↔ ∃ u ∈ db.users, u.email = email)
    ∧ ((∀ u ∈ db.users, u.email ≠ email) →
      ∃ newUser : User,
        (register db current email password name).1.users = db.users ++ [newUser]
        ∧ (register db current email password name).2.2 = .redirectedHome newUser
        ∧ newUser.email = email ∧ newUser.name = name
        ∧ newUser.password = generate_password_hash password) := by
  by_cases hdup : (db.users.any fun v => v.email == email) = true
  · obtain ⟨u, hu, he⟩ := List.any_eq_true.mp hdup
    constructor
    · apply iff_of_true
      · unfold register
        simp only [if_pos hdup]
      · exact ⟨u, hu, by simpa using he⟩
    · intro hfree
      exact absurd (by simpa using he) (hfree u hu)
  · constructor
    · apply iff_of_false
      · unfold register
        simp only [if_neg hdup]
        simp
      · rintro ⟨u, hu, he⟩
        exact hdup (List.any_eq_true.mpr ⟨u, hu, by simp [he]⟩)
    · intro _
      refine ⟨{ id := nextId (db.users.map (·.id)), email := email,
                password := generate_password_hash password, name := name },
              ?_, ?_, rfl, rfl, rfl⟩
      · unfold register
        simp only [if_neg hdup]
      · unfold register
        simp only [if_neg hdup]

/-- C10 witness: a registration whose email, password and name are all
empty strings succeeds against the two-user repository. -/
theorem register_no_validation_witness :
    ∃ newUser : User,
      (register dbAB .anonymous ("") ("") ("")).1.users = dbAB.users ++ [newUser]
      ∧ (register dbAB .anonymous ("") ("") ("")).2.2 = .redirectedHome newUser
      ∧ newUser.email = "" ∧ newUser.name = ""
      ∧ newUser.password = generate_password_hash ("") :=
  (register_no_validation dbAB .anonymous ("") ("") ("")).2 (by decide)

/-- C7: the comment list rendered by show_post is Comments.query.all():
for every database and every viewed post id it is the full comment
table, with no filtering by the comments' target posts. -/
theorem list_comments_unfiltered (db : DB) (current : CurrentUser)
    (post_id : Nat) :
    (show_post db current post_id none).2
      = .rendered (getPost db post_id) db.comments := rfl

/-- C9: login — whether it crashes on an unknown email, rejects a
wrong password, or succeeds — and logout return the database they were
given: no user, post or comment row is written; only the session's
bound identity changes. -/
theorem login_logout_repos_unchanged (db : DB) (current : CurrentUser)
    (email password : String) :
    (login db current email password).1 = db ∧ (logout db current).1 = db := by
  constructor
  · unfold login
    cases db.users.find? (fun u => u.email == email) with
    | none => rfl
    | some u => by_cases h : check_password_hash u.password password <;> simp [h]
  · rfl

/-- Searching by primary key commutes with an id-preserving update of
the row with that key. -/
theorem find?_map_update (l : List BlogPost) (pid : Nat)
    (f : BlogPost → BlogPost) (hf : ∀ q, (f q).id = q.id) :
    (l.map (fun q => if q.id == pid then f q else q)).find? (fun q => q.id == pid)
      = (l.find? (fun q => q.id == pid)).map
          (fun q => if q.id == pid then f q else q) := by
  induction l with
  | nil => rfl
  | cons a t ih =>
      by_cases h : (a.id == pid) = true
      · have hfa : ((if a.id == pid then f a else a).id == pid) = true := by
          rw [if_pos h, hf a]; exact h
        rw [List.map_cons,
          @List.find?_cons_of_pos BlogPost (fun q => q.id == pid) _ _ hfa,
          @List.find?_cons_of_pos BlogPost (fun q => q.id == pid) _ _ h]
        rfl
      · have hfa : ¬((if a.id == pid then f a else a).id == pid) = true := by
          rw [if_neg h]; exact h
        rw [List.map_cons,
          @List.find?_cons_of_neg BlogPost (fun q => q.id == pid) _ _ hfa,
          @List.find?_cons_of_neg BlogPost (fun q => q.id == pid) _ _ h]
        exact ih

/-- C6: when the administrator submits an edit that keeps an existing
post's title and changes its subtitle, the update commits as a
replacement of the row's mutable fields, and getPost on that id then
returns a post with the same id, the same title and the new subtitle. -/
theorem update_post_subtitle (db : DB) (p : BlogPost) (hp : p ∈ db.posts)
    (huniq : ∀ q ∈ db.posts, q.title = p.title → q.id = p.id)
    (subtitle2 img2 body2 : String) (author2 : Nat) :
    (edit_post db (.user 1) p.id p.title subtitle2 img2 author2 body2).2
        = .redirectedToPost
    ∧ ∃ p2 : BlogPost,
        getPost (edit_post db (.user 1) p.id p.title subtitle2 img2 author2 body2).1
            p.id = some p2
        ∧ p2.id = p.id ∧ p2.title = p.title ∧ p2.subtitle = subtitle2 := by
  obtain ⟨q, hq⟩ : ∃ q, db.posts.find? (fun x => x.id == p.id) = some q := by
    rw [← Option.isSome_iff_exists, List.find?_isSome]
    exact ⟨p, hp, by simp⟩
  have hqid : q.id = p.id := by simpa using List.find?_some hq
  have hany : (db.posts.any fun x => x.id != p.id && x.title == p.title) = false := by
    rw [List.any_eq_false]
    intro x hx
    simp only [Bool.and_eq_true, bne_iff_ne, beq_iff_eq, not_and]
    intro hne ht
    exact hne (huniq x hx ht)
  have hgate : ((1 : Nat) != 1) = false := rfl
  have hqid2 : (q.id == p.id) = true := by simp [hqid]
  constructor
  · simp only [edit_post, hgate, Bool.false_eq_true, if_false, hq, hany]
  · refine ⟨{ q with
                title := p.title
                subtitle := subtitle2
                img_url := img2
                author_id := author2
                body := body2 },
            ?_, by simpa using hqid, rfl, rfl⟩
    simp only [edit_post, getPost, hgate, Bool.false_eq_true, if_false, hq, hany]
    rw [find?_map_update db.posts p.id
        (fun r => { r with
                      title := p.title
                      subtitle := subtitle2
                      img_url := img2
                      author_id := author2
                      body := body2 })
        (fun _ => rfl), hq]
    simp only [Option.map_some', hqid2, if_true]

/-- C6 witness: the administrator edits the Hello post keeping its
title and setting subtitle "second"; getPost shows the new subtitle
with the old id and title. -/
theorem update_post_subtitle_witness :
    (edit_post dbABP (.user 1) helloPost.id helloPost.title ("second")
        ("img2.png") 1 ("new body")).2 = .redirectedToPost
    ∧ ∃ p2 : BlogPost,
        getPost (edit_post dbABP (.user 1) helloPost.id helloPost.title ("second")
            ("img2.png") 1 ("new body")).1 helloPost.id = some p2
        ∧ p2.id = helloPost.id ∧ p2.title = helloPost.title
        ∧ p2.subtitle = "second" :=
  update_post_subtitle dbABP helloPost (by decide) (by decide)
    ("second") ("img2.png") ("new body") 1

/-- C8: deleting an existing post removes it from the posts table but
deletes no comment row: the comment table keeps its length and every
comment survives with the same id, author and text — only the deleted
post's comments have their post reference nulled (orphaned). -/
theorem delete_post_keeps_comments (db : DB) (p : BlogPost)
    (hp : p ∈ db.posts) :
    ∃ db2 : DB, delete_post db (.user 1) p.id = (db2, .redirectedHome)
      ∧ p ∉ db2.posts
      ∧ db2.users = db.users
      ∧ db2.comments.length = db.comments.length
      ∧ ∀ c ∈ db.comments, ∃ c2 ∈ db2.comments,
          c2.id = c.id ∧ c2.author_id = c.author_id ∧ c2.text = c.text := by
  obtain ⟨q, hq⟩ : ∃ q, db.posts.find? (fun x => x.id == p.id) = some q := by
    rw [← Option.isSome_iff_exists, List.find?_isSome]
    exact ⟨p, hp, by simp⟩
  refine ⟨{ db with
            posts := db.posts.filter (fun x => !(x.id == p.id))
            comments := db.comments.map (fun c =>
              if c.post_id == some p.id then { c with post_id := none }
              else c) },
          ?_, ?_, rfl, by simp, ?_⟩
  · have hgate : ((1 : Nat) != 1) = false := rfl
    simp only [delete_post, hgate, Bool.false_eq_true, if_false, hq]
  · intro hmem
    have := List.of_mem_filter hmem
    simp at this
  · intro c hc
    refine ⟨if c.post_id == some p.id then { c with post_id := none } else c,
            List.mem_map_of_mem _ hc, ?_, ?_, ?_⟩ <;> split <;> rfl

/-- C8 witness: deleting the Hello post from a repository where Bob
has commented on it keeps Bob's comment row intact. -/
theorem delete_post_keeps_comments_witness :
    ∃ db2 : DB, delete_post dbABPC (.user 1) helloPost.id = (db2, .redirectedHome)
      ∧ helloPost ∉ db2.posts
      ∧ db2.users = dbABPC.users
      ∧ db2.comments.length = dbABPC.comments.length
      ∧ ∀ c ∈ dbABPC.comments, ∃ c2 ∈ db2.comments,
          c2.id = c.id ∧ c2.author_id = c.author_id ∧ c2.text = c.text :=
  delete_post_keeps_comments dbABPC helloPost (by decide)

end Blog
